import Mathlib

/-!
# Verification of the Cribops n8n integration (message exchange / delivery layer)

Shallow embedding of the core of `n8n-nodes-cribops`:

* the webhook ingestor (`CribopsTrigger.webhook`, src/nodes/CribopsTrigger/CribopsTrigger.node.ts),
* the queue poll tick (`poll` inside `CribopsTrigger.trigger`) and the `pollQueue` action,
* the reply router (`replyToConversation`),
* the transport client's request builder (`CribopsHttp.makeRequest`, current revision).

JavaScript dynamic values are modelled by `JsVal` (undefined / null / boolean /
number / string), JS objects by association lists with first-match lookup, and
JS truthiness by `truthy`.  Fallible calls (fetch of the queue, acknowledge,
JSON.parse) are modelled by `Except`/`Option` parameters so every possible
outcome of the external call is quantified over.
-/

/-- A JavaScript primitive value as it occurs in the payloads handled by the
node code.  `undef` is JavaScript `undefined` (the result of reading an absent
object field). -/
inductive JsVal where
  | undef : JsVal
  | nullv : JsVal
  | boolv : Bool → JsVal
  | num : Int → JsVal
  | str : String → JsVal
deriving DecidableEq, Repr

/-- A JavaScript object, as a key/value association list (first match wins on
lookup, mirroring property access on a plain object). -/
abbrev Obj : Type := List (String × JsVal)

/-- Property read `o[k]`: first binding of `k`, `undefined` when absent. -/
def getField : Obj → String → JsVal
  | [], _ => .undef
  | (k', v) :: rest, k => if k' = k then v else getField rest k

/-- Property write `{...o, k: v}` semantics for lookup purposes: the binding
for `k` is replaced by `v` (key order is irrelevant to `getField`). -/
def setField (o : Obj) (k : String) (v : JsVal) : Obj :=
  (o.filter (fun p => p.1 != k)) ++ [(k, v)]

/-- JavaScript truthiness of a `JsVal`. -/
def truthy : JsVal → Bool
  | .undef => false
  | .nullv => false
  | .boolv b => b
  | .num n => n ≠ 0
  | .str s => s ≠ ""

/-- JavaScript `a || b`. -/
def jsOr (a b : JsVal) : JsVal := if truthy a then a else b

/-- JavaScript `String(v)` on the values we model. -/
def jsToString : JsVal → String
  | .undef => "undefined"
  | .nullv => "null"
  | .boolv true => "true"
  | .boolv false => "false"
  | .num n => toString n
  | .str s => s

/-- JavaScript `Array.prototype.includes` on an array of strings: `===` never
equates a string with a non-string, so only a string value can be a member. -/
def inStringList (v : JsVal) (l : List String) : Bool :=
  match v with
  | .str s => l.contains s
  | _ => false

/-- Whether `needle` is an initial segment of `hay` (on character lists). -/
def listStartsWith : List Char → List Char → Bool
  | [], _ => true
  | _ :: _, [] => false
  | a :: as, b :: bs => a == b && listStartsWith as bs

/-- Whether `needle` occurs contiguously inside `hay` (on character lists). -/
def listOccursIn (needle : List Char) : List Char → Bool
  | [] => listStartsWith needle []
  | b :: bs => listStartsWith needle (b :: bs) || listOccursIn needle bs

/-- JavaScript `hay.includes(needle)` on strings (substring test). -/
def strIncludes (hay needle : String) : Bool :=
  listOccursIn needle.data hay.data

/-- JavaScript `s.trim()`: strip leading and trailing whitespace. -/
def jsTrim (s : String) : String :=
  String.mk (((s.data.dropWhile Char.isWhitespace).reverse.dropWhile Char.isWhitespace).reverse)

section WebhookIngestor

/-- The inputs the `webhook` method of `CribopsTrigger` reads: request body and
headers, the `eventTypes` parameter, `additionalFields.secretToken`, and the
`agentId` parameter. -/
structure WebhookInput where
  body : Obj
  headers : Obj
  eventTypes : List String
  secretToken : JsVal
  agentId : String
deriving DecidableEq, Repr

/-- Outcome of one inbound webhook call: either a synchronous HTTP reply with
no workflow data (`reply status body`, zero events emitted), or one item
emitted to the workflow (`emit json headers`, the `workflowData` branch). -/
inductive WebhookResult where
  | reply : Nat → Obj → WebhookResult
  | emit : Obj → Obj → WebhookResult
deriving DecidableEq, Repr

/-- The output-enrichment step of `webhook`
(src/nodes/CribopsTrigger/CribopsTrigger.node.ts:422-429):
`{...body, agent_id, conversation_id: body.conversation_id || body.conversationId
|| body.thread_id, response_webhook: body.response_webhook || body.responseWebhook
|| body.callback_url}`. -/
def normalizeBody (agentId : String) (body : Obj) : Obj :=
  setField
    (setField
      (setField body "agent_id" (.str agentId))
      "conversation_id"
      (jsOr (jsOr (getField body "conversation_id") (getField body "conversationId"))
        (getField body "thread_id")))
    "response_webhook"
    (jsOr (jsOr (getField body "response_webhook") (getField body "responseWebhook"))
      (getField body "callback_url"))

/-- The part of `webhook` after secret-token validation
(src/nodes/CribopsTrigger/CribopsTrigger.node.ts:411-444): event-type
filtering, then normalization and emission. -/
def webhookPostAuth (inp : WebhookInput) : WebhookResult :=
  if inp.eventTypes.length > 0 && truthy (getField inp.body "type")
      && !(inStringList (getField inp.body "type") inp.eventTypes) then
    .reply 200 [("received", .boolv true), ("filtered", .boolv true)]
  else
    .emit (normalizeBody inp.agentId inp.body) inp.headers

/-- The `webhook` method of `CribopsTrigger`
(src/nodes/CribopsTrigger/CribopsTrigger.node.ts:391-445).  Secret-token
validation: `receivedToken = headers['x-cribops-signature'] ||
headers['authorization']`; reject with `401 {error: 'Unauthorized'}` when
`receivedToken !== additionalFields.secretToken`. -/
def webhook (inp : WebhookInput) : WebhookResult :=
  if truthy inp.secretToken then
    let receivedToken :=
      jsOr (getField inp.headers "x-cribops-signature") (getField inp.headers "authorization")
    if receivedToken ≠ inp.secretToken then
      .reply 401 [("error", .str "Unauthorized")]
    else
      webhookPostAuth inp
  else
    webhookPostAuth inp

end WebhookIngestor

-- Lookup lemmas for the object model.

theorem getField_setField_same (o : Obj) (k : String) (v : JsVal) :
    getField (setField o k v) k = v := by
  unfold setField
  induction o with
  | nil => simp [getField]
  | cons p rest ih =>
    rw [List.filter_cons]
    by_cases h : p.1 = k
    · simpa [h] using ih
    · simpa [h, getField] using ih

theorem getField_setField_ne (o : Obj) (k k' : String) (v : JsVal) (h : k ≠ k') :
    getField (setField o k v) k' = getField o k' := by
  unfold setField
  induction o with
  | nil => simp [getField, h]
  | cons p rest ih =>
    rw [List.filter_cons]
    by_cases hp : p.1 = k
    · simpa [hp, getField, h] using ih
    · by_cases hk' : p.1 = k'
      · simp [hp, getField, hk', Ne.symm h]
      · simpa [hp, getField, hk'] using ih

section QueuePoller

/-- A `CribopsQueueMessage` (src/utils/CribopsHttp.ts): id, correlation id,
queue name, nested payload `data: {data: string, params, headers}`, and
insertion timestamp. -/
structure QueueMessage where
  id : Int
  correlation_id : String
  queue_name : String
  dataData : String
  dataParams : Obj
  dataHeaders : Obj
  inserted_at : String
deriving DecidableEq, Repr

/-- The parse step `let parsedData = message.data.data; try { parsedData =
JSON.parse(message.data.data) } catch (e) {}` (keep as string on failure).
`JSON.parse` is the platform builtin; it is modelled by an arbitrary
`parse : String → Option JsVal` (`none` = the parse threw), quantified over in
the theorems, so every outcome of the builtin is covered. -/
def parsedDataOf (parse : String → Option JsVal) (s : String) : JsVal :=
  match parse s with
  | some v => v
  | none => .str s

/-- The item emitted for one queue message, keys as in the object literal at
src/nodes/CribopsTrigger/CribopsTrigger.node.ts:339-350. -/
structure EmitItem where
  id : Int
  correlation_id : String
  queue_name : String
  data : JsVal
  headers : Obj
  params : Obj
  inserted_at : String
  tenant_id : JsVal
  path : JsVal
deriving DecidableEq, Repr

/-- Builds the emitted item for one message inside the trigger's `poll`
closure (src/nodes/CribopsTrigger/CribopsTrigger.node.ts:326-353):
`tenant_id: message.data.headers['x-cribops-tenant-id'] || tenantId`,
`path: message.data.headers['x-cribops-path']`. -/
def processMessage (parse : String → Option JsVal) (tenantId : String)
    (m : QueueMessage) : EmitItem :=
  { id := m.id
    correlation_id := m.correlation_id
    queue_name := m.queue_name
    data := parsedDataOf parse m.dataData
    headers := m.dataHeaders
    params := m.dataParams
    inserted_at := m.inserted_at
    tenant_id := jsOr (getField m.dataHeaders "x-cribops-tenant-id") (.str tenantId)
    path := getField m.dataHeaders "x-cribops-path" }

/-- Observable actions of one poll tick, in execution order: an `emit` per
message, the single `acknowledgeMessages(tenantId, messageIds)` call, and the
two `console.error` sites (swallowed acknowledge / fetch errors). -/
inductive PollAction where
  | emit : EmitItem → PollAction
  | ackCall : String → List Int → PollAction
  | logAckError : String → PollAction
  | logPollError : String → PollAction
deriving DecidableEq, Repr

/-- Evaluation of `match e with | .ok a => a | .error e => handler e`: the shallow embedding
of a JavaScript `try { ... } catch (e) { handler }` block. -/
def tryCatchJs {α : Type} (body : Except String α) (handler : String → α) : α :=
  match body with
  | .ok a => a
  | .error e => handler e

/-- The body of the `try` block of the trigger's `poll` closure
(src/nodes/CribopsTrigger/CribopsTrigger.node.ts:319-362): fetch the batch
(`fetch`, may throw), emit every message, then acknowledge all ids in one call
whose own failure is caught locally (`catch (ackError)`).  `ack ids` is the
outcome of `cribopsHttp.acknowledgeMessages(tenantId, ids)`. -/
def pollTickBody (parse : String → Option JsVal)
    (fetch : Except String (List QueueMessage))
    (ack : List Int → Except String Unit)
    (tenantId : String) : Except String (List PollAction) := do
  let messages ← fetch
  if messages.length > 0 then
    let messageIds := messages.map (·.id)
    let emits := messages.map (fun m => PollAction.emit (processMessage parse tenantId m))
    let ackTrace := PollAction.ackCall tenantId messageIds ::
      tryCatchJs (do
          let _ ← ack messageIds
          pure ([] : List PollAction))
        (fun e => [PollAction.logAckError e])
    pure (emits ++ ackTrace)
  else
    pure []

/-- One tick of the `poll` closure: the whole body sits in a `try` whose
`catch` logs and returns normally (src/nodes/CribopsTrigger/CribopsTrigger.node.ts:363-366),
so a tick always returns a trace and never rethrows. -/
def pollTick (parse : String → Option JsVal)
    (fetch : Except String (List QueueMessage))
    (ack : List Int → Except String Unit)
    (tenantId : String) : List PollAction :=
  tryCatchJs (pollTickBody parse fetch ack tenantId) (fun e => [PollAction.logPollError e])

/-- The per-message mapping of the `pollQueue` action
(src/nodes/CribopsTrigger/CribopsTrigger.node.ts:1108-1128), which duplicates
the trigger's processing code line for line. -/
def pollQueueProcess (parse : String → Option JsVal) (tenantId : String)
    (m : QueueMessage) : EmitItem :=
  { id := m.id
    correlation_id := m.correlation_id
    queue_name := m.queue_name
    data := parsedDataOf parse m.dataData
    headers := m.dataHeaders
    params := m.dataParams
    inserted_at := m.inserted_at
    tenant_id := jsOr (getField m.dataHeaders "x-cribops-tenant-id") (.str tenantId)
    path := getField m.dataHeaders "x-cribops-path" }

/-- Result of the `pollQueue` action: the processed messages, their count, and
the acknowledge call made (if any). -/
structure PollQueueResult where
  messages : List EmitItem
  count : Nat
  ackCalled : Option (String × List Int)
deriving DecidableEq, Repr

/-- The `pollQueue` action (src/nodes/CribopsTrigger/CribopsTrigger.node.ts:1100-1142):
fetch (errors propagate to `execute`), map every message through the parse-or-raw
processing, auto-acknowledge when the batch is non-empty with the acknowledge
error caught and logged. -/
def pollQueueOp (parse : String → Option JsVal)
    (fetch : Except String (List QueueMessage))
    (ack : List Int → Except String Unit)
    (tenantId : String) : Except String PollQueueResult := do
  let messages ← fetch
  let processedMessages := messages.map (pollQueueProcess parse tenantId)
  let ackCalled :=
    if messages.length > 0 then
      let messageIds := messages.map (·.id)
      let _ := tryCatchJs (do let _ ← ack messageIds; pure ()) (fun _ => ())
      some (tenantId, messageIds)
    else
      none
  pure { messages := processedMessages, count := processedMessages.length, ackCalled := ackCalled }

end QueuePoller

section ReplyRouter

/-- The inputs `replyToConversation` reads
(src/nodes/CribopsTrigger/CribopsTrigger.node.ts:900-913): the resolved node
parameters, the current item's `json` object, the `_originalTriggerData`
pass-through bag on that item (an object value, kept apart because object
values are not `JsVal` primitives; `none` = absent/falsy), and the result of
the `workflowData.$('Cribops Trigger').item.json` lookup (`none` when the
lookup throws or any link of the `ctd && ctd.item && ctd.item.json` chain is
falsy). -/
structure ReplyInput where
  agentId : String
  conversationId : String
  message : String
  itemJson : Obj
  originalTriggerData : Option Obj
  triggerNode : Option Obj
deriving DecidableEq, Repr

/-- Outcome of one `replyToConversation` call: a thrown `NodeOperationError`
before any dispatch, the JSON fallback dispatch through
`cribopsHttp.sendMessage` (direct agent-messaging endpoint), or the
form-encoded POST to the resolved callback URL. -/
inductive ReplyOutcome where
  | validationError : String → ReplyOutcome
  | jsonDispatch : String → Obj → ReplyOutcome
  | formDispatch : String → List (String × String) → String → ReplyOutcome
deriving DecidableEq, Repr

/-- Returns `true` iff the outcome performs a network call (either dispatch shape). -/
def makesNetworkCall : ReplyOutcome → Bool
  | .validationError _ => false
  | .jsonDispatch _ _ => true
  | .formDispatch _ _ _ => true

/-- Wire shape of a dispatch: form-encoded callback POST vs JSON agent call. -/
inductive WireShape where
  | form : WireShape
  | json : WireShape
deriving DecidableEq, Repr

/-- Wire shape and destination URL of an outcome (`none` for a validation
error: nothing was dispatched). -/
def wireOf : ReplyOutcome → Option (WireShape × String)
  | .validationError _ => none
  | .jsonDispatch url _ => some (.json, url)
  | .formDispatch url _ _ => some (.form, url)

/-- Destination resolution of `replyToConversation`
(src/nodes/CribopsTrigger/CribopsTrigger.node.ts:905-926), in source order:
(a) `inputData.json.response_webhook`; (b) if that is falsy and
`_originalTriggerData` is present, its `response_webhook`; (c) if still falsy,
the `response_webhook` of the `Cribops Trigger` node's last item (lookup
failures swallowed). -/
def resolveResponseWebhook (inp : ReplyInput) : JsVal :=
  let r0 := getField inp.itemJson "response_webhook"
  let r1 :=
    if !truthy r0 then
      match inp.originalTriggerData with
      | some bag => getField bag "response_webhook"
      | none => r0
    else r0
  if !truthy r1 then
    match inp.triggerNode with
    | some tj => getField tj "response_webhook"
    | none => r1
  else r1

/-- The `replyToConversation` helper (src/nodes/CribopsTrigger/CribopsTrigger.node.ts:900-1046).
`baseUrl`/`apiToken` are the transport client's config; `now` is
`new Date().toISOString()` and `uuid` the `generateUUID()` result, passed in as
values since they are ambient effects.  After destination resolution the
conversation id is validated (unresolved `\x7b\x7b`/`\x7d\x7d` template syntax, then
empty/whitespace); then either the JSON fallback `sendMessage` or the
form-encoded POST to the callback URL is dispatched. -/
def replyToConversation (baseUrl apiToken now uuid : String) (inp : ReplyInput) :
    ReplyOutcome :=
  let responseWebhook := resolveResponseWebhook inp
  if strIncludes inp.conversationId "\x7b\x7b" || strIncludes inp.conversationId "\x7d\x7d" then
    .validationError ("Conversation ID contains unevaluated expression: " ++ inp.conversationId
      ++ ". Please ensure the expression is properly formatted.")
  else if inp.conversationId == "" || jsTrim inp.conversationId == "" then
    .validationError "Conversation ID is required but was empty"
  else if !truthy responseWebhook then
    .jsonDispatch (baseUrl ++ "/webhooks/agents/" ++ inp.agentId ++ "/message")
      [("id", .str uuid), ("content", .str inp.message),
       ("conversationId", .str inp.conversationId), ("agentId", .str inp.agentId),
       ("type", .str "agent_response"), ("timestamp", .str now)]
  else
    let userId0 := jsOr (getField inp.itemJson "user_id") (.str "")
    let orgId0 := jsOr (getField inp.itemJson "organization_id") (.str "")
    let resolved :=
      if (!truthy userId0 || !truthy orgId0) && truthy responseWebhook then
        match inp.triggerNode with
        | some tj =>
          (jsOr userId0 (jsOr (getField tj "user_id") (.str "")),
           jsOr orgId0 (jsOr (getField tj "organization_id") (.str "")))
        | none => (userId0, orgId0)
      else (userId0, orgId0)
    .formDispatch (jsToString responseWebhook)
      [("conversation_id", inp.conversationId), ("content", inp.message),
       ("message_id", uuid), ("timestamp", now),
       ("user_id", jsToString resolved.1), ("organization_id", jsToString resolved.2)]
      ("Bearer " ++ apiToken)

end ReplyRouter

section TransportClient

/-- The transport client's configuration (`CribopsHttpConfig`). -/
structure HttpConfig where
  baseUrl : String
  apiToken : String
deriving DecidableEq, Repr

/-- The single `fetch(...)` call `makeRequest` issues: final URL, method,
headers, and optional string body. -/
structure FetchCall where
  url : String
  method : String
  headers : List (String × String)
  body : Option String
deriving DecidableEq, Repr

/-- Assignment `requestHeaders[key] = String(options.headers[key])`: override-or-append on
the header map. -/
def setHeader (hs : List (String × String)) (k v : String) : List (String × String) :=
  if hs.any (fun p => p.1 == k) then
    hs.map (fun p => if p.1 = k then (k, v) else p)
  else
    hs ++ [(k, v)]

/-- The builtin `URLSearchParams(...).toString()` on already-stringified pairs, with the
builtin's percent-encoding abstracted as plain `k=v` joined by `&`. -/
def searchParamsToString (ps : List (String × String)) : String :=
  String.intercalate "&" (ps.map (fun p => p.1 ++ "=" ++ p.2))

/-- The filtered, stringified query pairs a GET request builds from `data`:
`value !== undefined && value !== null` then `String(value)`
(src/unnamed/part_001:79-84). -/
def queryPairs (d : Obj) : List (String × String) :=
  (d.filter (fun p => p.2 != JsVal.undef && p.2 != JsVal.nullv)).map
    (fun p => (p.1, jsToString p.2))

/-- A minimal `JSON.stringify` for flat objects of primitives (the builtin,
abstracted; only compared syntactically in the theorems). -/
def jsonStringify (d : Obj) : String :=
  "\x7b" ++ String.intercalate ","
    (d.map (fun p => "\"" ++ p.1 ++ "\":" ++
      (match p.2 with
       | .str s => "\"" ++ s ++ "\""
       | v => jsToString v))) ++ "\x7d"

/-- The `CribopsHttp.makeRequest` method of the current transport client revision
(src/unnamed/part_001:69-110), up to the `fetch` call it performs: for a GET
with a non-empty `data`, the defined pairs are appended to the URL as a query
string and `data` is cleared; the request body is
`(method !== 'GET' && data) ? JSON.stringify(data) : undefined`; base headers
are bearer auth + JSON content headers, overridable by `options.headers`. -/
def makeRequest (config : HttpConfig) (method : String) (endpoint : String)
    (data : Option Obj) (optHeaders : List (String × String)) : FetchCall :=
  let url := config.baseUrl ++ endpoint
  let urlData :=
    match data with
    | some d =>
      if method == "GET" && d.length > 0 then
        let queryString := searchParamsToString (queryPairs d)
        (if queryString ≠ "" then url ++ "?" ++ queryString else url, (none : Option Obj))
      else (url, some d)
    | none => (url, none)
  let requestHeaders :=
    optHeaders.foldl (fun hs p => setHeader hs p.1 p.2)
      [("Authorization", "Bearer " ++ config.apiToken),
       ("Content-Type", "application/json"),
       ("Accept", "application/json")]
  { url := urlData.1
    method := method
    headers := requestHeaders
    body :=
      match urlData.2 with
      | some d => if method ≠ "GET" then some (jsonStringify d) else none
      | none => none }

end TransportClient

-- Trace observations for the poll tick.

/-- The acknowledge calls occurring in a trace, in order. -/
def ackCallsOf (tr : List PollAction) : List (String × List Int) :=
  tr.filterMap (fun a =>
    match a with
    | .ackCall t ids => some (t, ids)
    | _ => none)

/-- The ids of the messages emitted in a trace, in order. -/
def emittedIdsOf (tr : List PollAction) : List Int :=
  tr.filterMap (fun a =>
    match a with
    | .emit it => some it.id
    | _ => none)

theorem ackCallsOf_append (l₁ l₂ : List PollAction) :
    ackCallsOf (l₁ ++ l₂) = ackCallsOf l₁ ++ ackCallsOf l₂ := by
  simp [ackCallsOf, List.filterMap_append]

theorem emittedIdsOf_append (l₁ l₂ : List PollAction) :
    emittedIdsOf (l₁ ++ l₂) = emittedIdsOf l₁ ++ emittedIdsOf l₂ := by
  simp [emittedIdsOf, List.filterMap_append]

theorem ackCallsOf_emits (parse : String → Option JsVal) (tenantId : String)
    (msgs : List QueueMessage) :
    ackCallsOf (msgs.map (fun m => PollAction.emit (processMessage parse tenantId m))) = [] := by
  induction msgs with
  | nil => rfl
  | cons m rest ih => simp_all [ackCallsOf, List.filterMap]

theorem emittedIdsOf_emits (parse : String → Option JsVal) (tenantId : String)
    (msgs : List QueueMessage) :
    emittedIdsOf (msgs.map (fun m => PollAction.emit (processMessage parse tenantId m)))
      = msgs.map (·.id) := by
  induction msgs with
  | nil => rfl
  | cons m rest ih => simpa [emittedIdsOf, List.filterMap, processMessage] using ih

/-- The trace a successful fetch of a non-empty batch produces: all emissions,
then the one acknowledge call, then (only) the possible swallowed
acknowledge-error log. -/
theorem pollTick_ok_eq (parse : String → Option JsVal) (msgs : List QueueMessage)
    (ack : List Int → Except String Unit) (tenantId : String) (h : msgs ≠ []) :
    pollTick parse (.ok msgs) ack tenantId
      = (msgs.map (fun m => PollAction.emit (processMessage parse tenantId m)))
        ++ PollAction.ackCall tenantId (msgs.map (·.id)) ::
          (match ack (msgs.map (·.id)) with
           | .ok _ => []
           | .error e => [PollAction.logAckError e]) := by
  have hlen : 0 < msgs.length := List.length_pos.mpr h
  unfold pollTick pollTickBody tryCatchJs
  cases hack : ack (msgs.map (·.id)) <;>
    simp [bind, Except.bind, Functor.map, Except.map, pure, Except.pure, hlen, hack]

-- Concrete fixtures used by the witnesses.

/-- Fixture: a `JSON.parse` that always throws (non-JSON payload strings). -/
def parseFail : String → Option JsVal := fun _ => none

/-- Fixture: an acknowledge call that always succeeds. -/
def ackOk : List Int → Except String Unit := fun _ => .ok ()

/-- Fixture: a queue message with the given id. -/
def qmsg (n : Int) : QueueMessage :=
  { id := n
    correlation_id := "corr"
    queue_name := "q"
    dataData := "payload"
    dataParams := []
    dataHeaders := []
    inserted_at := "2024-01-01T00:00:00Z" }

/-- Fixture: the spec scenario batch of two messages with ids 10 and 11. -/
def batch2 : List QueueMessage := [qmsg 10, qmsg 11]

/-- C1: in every poll tick whose fetch returns a non-empty batch, the ids
emitted are exactly the batch's ids, `acknowledgeMessages` is called exactly
once with exactly those ids, and the trace decomposes as all emissions first,
then the acknowledge call, then a remainder containing no further emission or
acknowledge call (emit-before-acknowledge order). -/
theorem poll_tick_ack_once_after_emit (parse : String → Option JsVal)
    (msgs : List QueueMessage) (ack : List Int → Except String Unit) (tenantId : String)
    (h : msgs ≠ []) :
    emittedIdsOf (pollTick parse (.ok msgs) ack tenantId) = msgs.map (·.id)
    ∧ ackCallsOf (pollTick parse (.ok msgs) ack tenantId)
        = [(tenantId, emittedIdsOf (pollTick parse (.ok msgs) ack tenantId))]
    ∧ ∃ rest, pollTick parse (.ok msgs) ack tenantId
          = (msgs.map (fun m => PollAction.emit (processMessage parse tenantId m)))
            ++ PollAction.ackCall tenantId (msgs.map (·.id)) :: rest
        ∧ ackCallsOf rest = [] ∧ emittedIdsOf rest = [] := by
  cases hack : ack (msgs.map (·.id)) with
  | ok u =>
    rw [pollTick_ok_eq parse msgs ack tenantId h, hack]
    refine ⟨?_, ?_, ⟨[], by simp, rfl, rfl⟩⟩
    · rw [emittedIdsOf_append, emittedIdsOf_emits]
      simp [emittedIdsOf, List.filterMap_cons]
    · rw [ackCallsOf_append, ackCallsOf_emits, emittedIdsOf_append, emittedIdsOf_emits]
      simp [ackCallsOf, emittedIdsOf, List.filterMap_cons]
  | error e =>
    rw [pollTick_ok_eq parse msgs ack tenantId h, hack]
    refine ⟨?_, ?_, ⟨[PollAction.logAckError e], by simp, rfl, rfl⟩⟩
    · rw [emittedIdsOf_append, emittedIdsOf_emits]
      simp [emittedIdsOf, List.filterMap_cons]
    · rw [ackCallsOf_append, ackCallsOf_emits, emittedIdsOf_append, emittedIdsOf_emits]
      simp [ackCallsOf, emittedIdsOf, List.filterMap_cons]

/-- Witness for C1 at the spec scenario: batch of two messages with ids 10 and
11, fetched for tenant `t1`. -/
theorem poll_tick_ack_once_after_emit_witness :
    batch2 ≠ []
    ∧ (emittedIdsOf (pollTick parseFail (.ok batch2) ackOk "t1") = batch2.map (·.id)
       ∧ ackCallsOf (pollTick parseFail (.ok batch2) ackOk "t1")
           = [("t1", emittedIdsOf (pollTick parseFail (.ok batch2) ackOk "t1"))]
       ∧ ∃ rest, pollTick parseFail (.ok batch2) ackOk "t1"
             = (batch2.map (fun m => PollAction.emit (processMessage parseFail "t1" m)))
               ++ PollAction.ackCall "t1" (batch2.map (·.id)) :: rest
           ∧ ackCallsOf rest = [] ∧ emittedIdsOf rest = []) :=
  ⟨by decide, poll_tick_ack_once_after_emit parseFail batch2 ackOk "t1" (by decide)⟩

/-- C2: a poll tick never propagates an exception.  A fetch error makes the
inner body fail, but the tick catches it and returns normally with only the
logged error (nothing emitted); an acknowledge error after emission is caught
and the already-emitted events remain in the trace; the tick is a total
function in every case. -/
theorem poll_tick_swallows_errors (parse : String → Option JsVal)
    (msgs : List QueueMessage) (ack : List Int → Except String Unit)
    (tenantId : String) (e e' : String) (h : msgs ≠ []) :
    pollTick parse (.error e) ack tenantId = [PollAction.logPollError e]
    ∧ pollTickBody parse (.error e) ack tenantId = .error e
    ∧ pollTick parse (.ok msgs) (fun _ => .error e') tenantId
        = (msgs.map (fun m => PollAction.emit (processMessage parse tenantId m)))
          ++ [PollAction.ackCall tenantId (msgs.map (·.id)), PollAction.logAckError e'] := by
  refine ⟨rfl, rfl, ?_⟩
  rw [pollTick_ok_eq parse msgs (fun _ => .error e') tenantId h]

/-- Witness for C2: the scenario batch with a failing fetch and a failing
acknowledge call. -/
theorem poll_tick_swallows_errors_witness :
    batch2 ≠ []
    ∧ (pollTick parseFail (.error "fetch down") ackOk "t1"
          = [PollAction.logPollError "fetch down"]
       ∧ pollTickBody parseFail (.error "fetch down") ackOk "t1" = .error "fetch down"
       ∧ pollTick parseFail (.ok batch2) (fun _ => .error "ack down") "t1"
           = (batch2.map (fun m => PollAction.emit (processMessage parseFail "t1" m)))
             ++ [PollAction.ackCall "t1" (batch2.map (·.id)),
                 PollAction.logAckError "ack down"]) :=
  ⟨by decide,
   poll_tick_swallows_errors parseFail batch2 ackOk "t1" "fetch down" "ack down" (by decide)⟩

/-- C8: in both the polling trigger (`processMessage`) and the `pollQueue`
action (`pollQueueProcess`), the payload string `data.data` is JSON-parsed
when possible and kept as the raw string when the parse fails; both mappings
are total, so the parse step never raises to the caller. -/
theorem queue_data_parse_fallback (parse : String → Option JsVal)
    (tenantId : String) (m : QueueMessage) :
    (∀ v, parse m.dataData = some v →
       (processMessage parse tenantId m).data = v
       ∧ (pollQueueProcess parse tenantId m).data = v)
    ∧ (parse m.dataData = none →
       (processMessage parse tenantId m).data = .str m.dataData
       ∧ (pollQueueProcess parse tenantId m).data = .str m.dataData) := by
  constructor
  · intro v hv
    constructor <;> simp [processMessage, pollQueueProcess, parsedDataOf, hv]
  · intro hv
    constructor <;> simp [processMessage, pollQueueProcess, parsedDataOf, hv]

/-- Witness for C8: a non-JSON payload string is kept raw on both paths. -/
theorem queue_data_parse_fallback_witness :
    parseFail (qmsg 10).dataData = none
    ∧ ((processMessage parseFail "t1" (qmsg 10)).data = .str (qmsg 10).dataData
       ∧ (pollQueueProcess parseFail "t1" (qmsg 10)).data = .str (qmsg 10).dataData) :=
  ⟨rfl, (queue_data_parse_fallback parseFail "t1" (qmsg 10)).2 rfl⟩

-- Webhook ingestor fixtures.

/-- Fixture: secret "s" configured, request authenticated only by
`Authorization: Bearer s`. -/
def bearerInput : WebhookInput :=
  { body := []
    headers := [("authorization", .str "Bearer s")]
    eventTypes := []
    secretToken := .str "s"
    agentId := "a1" }

/-- Fixture: secret "s" configured and matched by the signature header. -/
def signedInput : WebhookInput :=
  { body := []
    headers := [("x-cribops-signature", .str "s")]
    eventTypes := []
    secretToken := .str "s"
    agentId := "a1" }

/-- Fixture: the claim payload `{content:"hi", thread_id:"c1"}`. -/
def contentThreadBody : Obj := [("content", .str "hi"), ("thread_id", .str "c1")]

/-- Fixture: webhook call carrying `contentThreadBody`, no secret, no
event-type allow-list. -/
def contentThreadInput : WebhookInput :=
  { body := contentThreadBody
    headers := []
    eventTypes := []
    secretToken := .undef
    agentId := "a1" }

/-- Fixture: the claim payload `{message:"hi", conversation_id:"c1"}`. -/
def messageConvBody : Obj := [("message", .str "hi"), ("conversation_id", .str "c1")]

/-- Fixture: allow-list `["user_message"]` with a non-matching payload type. -/
def filteredInput : WebhookInput :=
  { body := [("type", .str "other")]
    headers := []
    eventTypes := ["user_message"]
    secretToken := .undef
    agentId := "a1" }

/-- Fixture: the event type appears only under the snake_case variant field
name `event_type` (not under `type`); the allow-list does not contain it. -/
def variantTypeInput : WebhookInput :=
  { body := [("event_type", .str "other")]
    headers := []
    eventTypes := ["user_message"]
    secretToken := .undef
    agentId := "a1" }

/-- Fixture: empty-string secret (not configured) and a non-matching
Authorization header. -/
def noSecretInput : WebhookInput :=
  { body := [("hello", .str "x")]
    headers := [("authorization", .str "wrong")]
    eventTypes := []
    secretToken := .str ""
    agentId := "a1" }

/-- C3 counterexample: with secret "s" configured and
`Authorization: Bearer s` (no signature header), the handler replies 401 even
though the claim says a `Bearer <secret>` Authorization header is accepted —
the code compares the raw header value to the secret and never strips a
Bearer prefix. -/
theorem webhook_bearer_auth_rejected :
    truthy bearerInput.secretToken = true
    ∧ getField bearerInput.headers "authorization" = .str ("Bearer " ++ "s")
    ∧ webhook bearerInput = .reply 401 [("error", .str "Unauthorized")] := by
  refine ⟨by decide, by decide, by decide⟩

/-- C3 (amended): when a secret token is configured (truthy), the request is
accepted (proceeds to filtering/normalization) iff the first truthy of the
`x-cribops-signature` and `authorization` headers equals the secret exactly
(no Bearer-prefix handling); in every other case the handler replies
`401 {error: 'Unauthorized'}` and emits zero events. -/
theorem webhook_secret_validation (inp : WebhookInput)
    (hs : truthy inp.secretToken = true) :
    (jsOr (getField inp.headers "x-cribops-signature") (getField inp.headers "authorization")
        = inp.secretToken →
      webhook inp = webhookPostAuth inp)
    ∧ (jsOr (getField inp.headers "x-cribops-signature") (getField inp.headers "authorization")
        ≠ inp.secretToken →
      webhook inp = .reply 401 [("error", .str "Unauthorized")]
      ∧ ∀ o hd, webhook inp ≠ .emit o hd) := by
  constructor
  · intro heq
    simp [webhook, hs, heq]
  · intro hne
    refine ⟨by simp [webhook, hs, hne], ?_⟩
    intro o hd
    simp [webhook, hs, hne]

/-- Witness for C3 (amended): a matching signature header is accepted, at the
concrete input `signedInput`. -/
theorem webhook_secret_validation_witness :
    truthy signedInput.secretToken = true
    ∧ webhook signedInput = webhookPostAuth signedInput :=
  ⟨by decide, (webhook_secret_validation signedInput (by decide)).1 (by decide)⟩

/-- C4 counterexample: the payload `{content:"hi", thread_id:"c1"}` is
emitted with `conversation_id:"c1"` and `content:"hi"`, but with NO `message`
field — the code never maps `content` to a canonical `message`, so this
payload does not normalize to an event with `message:"hi"` and the two payloads
of the claim are not alias-equivalent. -/
theorem webhook_no_message_alias :
    webhook contentThreadInput
      = .emit (normalizeBody "a1" contentThreadBody) contentThreadInput.headers
    ∧ getField (normalizeBody "a1" contentThreadBody) "message" = JsVal.undef
    ∧ getField (normalizeBody "a1" contentThreadBody) "conversation_id" = .str "c1"
    ∧ getField (normalizeBody "a1" contentThreadBody) "content" = .str "hi" := by
  refine ⟨by decide, by decide, by decide, by decide⟩

/-- C4 (amended): webhook normalization aliases exactly `conversation_id`
(from `conversation_id`/`conversationId`/`thread_id`, first truthy wins) and
`response_webhook` (from `response_webhook`/`responseWebhook`/`callback_url`),
sets `agent_id`, and passes every other payload field through unchanged (in
particular `content` is not renamed to `message`); absent sources map to
`undefined` and the mapping is total (never throws). -/
theorem webhook_normalization_total (agentId : String) (body : Obj) :
    getField (normalizeBody agentId body) "conversation_id"
      = jsOr (jsOr (getField body "conversation_id") (getField body "conversationId"))
          (getField body "thread_id")
    ∧ getField (normalizeBody agentId body) "response_webhook"
      = jsOr (jsOr (getField body "response_webhook") (getField body "responseWebhook"))
          (getField body "callback_url")
    ∧ getField (normalizeBody agentId body) "agent_id" = .str agentId
    ∧ (∀ k, k ≠ "agent_id" → k ≠ "conversation_id" → k ≠ "response_webhook" →
        getField (normalizeBody agentId body) k = getField body k) := by
  refine ⟨?_, ?_, ?_, ?_⟩
  · unfold normalizeBody
    rw [getField_setField_ne _ _ _ _ (by decide), getField_setField_same]
  · unfold normalizeBody
    rw [getField_setField_same]
  · unfold normalizeBody
    rw [getField_setField_ne _ _ _ _ (by decide), getField_setField_ne _ _ _ _ (by decide),
      getField_setField_same]
  · intro k h1 h2 h3
    unfold normalizeBody
    rw [getField_setField_ne _ _ _ _ (Ne.symm h3), getField_setField_ne _ _ _ _ (Ne.symm h2),
      getField_setField_ne _ _ _ _ (Ne.symm h1)]

/-- Witness for C4 (amended): the `message` field of the payload
`{message:"hi", conversation_id:"c1"}` passes through unchanged. -/
theorem webhook_normalization_total_witness :
    getField (normalizeBody "a1" messageConvBody) "message" = getField messageConvBody "message" :=
  (webhook_normalization_total "a1" messageConvBody).2.2.2 "message"
    (by decide) (by decide) (by decide)

/-- C5 counterexample: the event type is NOT determined from the first present
of several field-name variants — the code reads only the single `type` field.
With allow-list `["user_message"]`, a payload carrying its event type solely
under the snake_case variant `event_type` (value `"other"`, not in the list)
is not filtered: it is normalized and emitted; the same value under `type` is
filtered with `200 {received:true, filtered:true}`. -/
theorem webhook_single_type_field :
    webhookPostAuth variantTypeInput
      = .emit (normalizeBody "a1" variantTypeInput.body) variantTypeInput.headers
    ∧ getField variantTypeInput.body "event_type" = .str "other"
    ∧ getField variantTypeInput.body "type" = .undef
    ∧ webhookPostAuth filteredInput
      = .reply 200 [("received", .boolv true), ("filtered", .boolv true)] := by
  refine ⟨by decide, by decide, by decide, by decide⟩

/-- C5 (amended): for a request that passes secret validation, the event type
is read from the single body field `type` (no other field-name variant is
consulted): if the allow-list is non-empty and `type` is present (truthy) but
not in the list, the handler replies `200 {received:true, filtered:true}` and
emits zero events; a payload with no `type` field is never filtered — it is
normalized and emitted, even if it carries an event type under another field
name. -/
theorem webhook_event_type_filter (inp : WebhookInput) :
    (inp.eventTypes ≠ [] → truthy (getField inp.body "type") = true →
      inStringList (getField inp.body "type") inp.eventTypes = false →
      webhookPostAuth inp = .reply 200 [("received", .boolv true), ("filtered", .boolv true)]
      ∧ ∀ o hd, webhookPostAuth inp ≠ .emit o hd)
    ∧ (getField inp.body "type" = .undef →
      webhookPostAuth inp = .emit (normalizeBody inp.agentId inp.body) inp.headers) := by
  constructor
  · intro hne ht hl
    have hlen : 0 < inp.eventTypes.length := List.length_pos.mpr hne
    refine ⟨by simp [webhookPostAuth, hlen, ht, hl], ?_⟩
    intro o hd
    simp [webhookPostAuth, hlen, ht, hl]
  · intro ht
    simp [webhookPostAuth, ht, truthy]

/-- Witness for C5 at the concrete input `filteredInput` (allow-list
`["user_message"]`, payload type `"other"`). -/
theorem webhook_event_type_filter_witness :
    webhookPostAuth filteredInput
      = .reply 200 [("received", .boolv true), ("filtered", .boolv true)]
    ∧ ∀ o hd, webhookPostAuth filteredInput ≠ .emit o hd :=
  (webhook_event_type_filter filteredInput).1 (by decide) (by decide) (by decide)

theorem webhookPostAuth_ne_401 (inp : WebhookInput) (b : Obj) :
    webhookPostAuth inp ≠ .reply 401 b := by
  unfold webhookPostAuth
  split <;> simp

/-- C10: when no secret token is configured (the field is absent or the empty
string, both falsy), the handler never replies 401: every request proceeds
directly to event-type filtering and normalization, whatever its signature or
Authorization headers are. -/
theorem webhook_no_secret_no_unauthorized (inp : WebhookInput)
    (hs : truthy inp.secretToken = false) :
    webhook inp = webhookPostAuth inp
    ∧ ∀ b, webhook inp ≠ .reply 401 b := by
  have hw : webhook inp = webhookPostAuth inp := by simp [webhook, hs]
  refine ⟨hw, ?_⟩
  intro b
  rw [hw]
  exact webhookPostAuth_ne_401 inp b

/-- Witness for C10: empty-string secret with a non-matching Authorization
header still passes validation. -/
theorem webhook_no_secret_no_unauthorized_witness :
    truthy noSecretInput.secretToken = false
    ∧ (webhook noSecretInput = webhookPostAuth noSecretInput
       ∧ ∀ b, webhook noSecretInput ≠ .reply 401 b) :=
  ⟨by decide, webhook_no_secret_no_unauthorized noSecretInput (by decide)⟩

-- Reply router fixtures.

/-- Fixture: an all-whitespace conversation id (two spaces). -/
def whitespaceReply : ReplyInput :=
  { agentId := "a1"
    conversationId := "  "
    message := "hello"
    itemJson := []
    originalTriggerData := none
    triggerNode := none }

/-- Fixture: a conversation id with unresolved template syntax. -/
def bracesReply : ReplyInput :=
  { agentId := "a1"
    conversationId := "\x7b\x7b $json.conversation_id \x7d\x7d"
    message := "hello"
    itemJson := []
    originalTriggerData := none
    triggerNode := none }

/-- Fixture: no `response_webhook` on the item, no pass-through bag, no
upstream trigger record. -/
def noDestReply : ReplyInput :=
  { agentId := "a1"
    conversationId := "c1"
    message := "hello"
    itemJson := []
    originalTriggerData := none
    triggerNode := none }

/-- C7 counterexample: for the all-whitespace conversation id `"  "`, the
validation error is raised before any network call, but its fixed message
"Conversation ID is required but was empty" does not include the offending raw
value, contrary to the claim. -/
theorem reply_whitespace_error_lacks_raw_value :
    replyToConversation "https://api" "tok" "2024-01-01T00:00:00Z" "uuid-1" whitespaceReply
      = .validationError "Conversation ID is required but was empty"
    ∧ strIncludes "Conversation ID is required but was empty" "  " = false
    ∧ makesNetworkCall
        (replyToConversation "https://api" "tok" "2024-01-01T00:00:00Z" "uuid-1" whitespaceReply)
      = false := by
  refine ⟨by decide, by decide, by decide⟩

/-- C7 (amended): a conversation id containing literal `\x7b\x7b` or `\x7d\x7d` raises a
validation error whose message includes the offending raw value, before any
network call; an empty or all-whitespace conversation id (without template
syntax) raises a validation error with the fixed message "Conversation ID is
required but was empty" (which does not in general include the raw value),
also before any network call. -/
theorem reply_validation_before_dispatch (baseUrl apiToken now uuid : String)
    (inp : ReplyInput) :
    (strIncludes inp.conversationId "\x7b\x7b" = true
        ∨ strIncludes inp.conversationId "\x7d\x7d" = true →
      (∃ pre post, replyToConversation baseUrl apiToken now uuid inp
          = .validationError (pre ++ inp.conversationId ++ post))
      ∧ makesNetworkCall (replyToConversation baseUrl apiToken now uuid inp) = false)
    ∧ (strIncludes inp.conversationId "\x7b\x7b" = false →
       strIncludes inp.conversationId "\x7d\x7d" = false →
       jsTrim inp.conversationId = "" →
      replyToConversation baseUrl apiToken now uuid inp
        = .validationError "Conversation ID is required but was empty"
      ∧ makesNetworkCall (replyToConversation baseUrl apiToken now uuid inp) = false) := by
  constructor
  · intro h
    have hcond : (strIncludes inp.conversationId "\x7b\x7b"
        || strIncludes inp.conversationId "\x7d\x7d") = true := by
      rcases h with h | h <;> simp [h]
    refine ⟨⟨"Conversation ID contains unevaluated expression: ",
      ". Please ensure the expression is properly formatted.", ?_⟩, ?_⟩
    · simp [replyToConversation, hcond]
    · simp [replyToConversation, hcond, makesNetworkCall]
  · intro h1 h2 h3
    have htr : (inp.conversationId == "" || jsTrim inp.conversationId == "") = true := by
      simp [h3]
    constructor
    · simp [replyToConversation, h1, h2, htr]
    · simp [replyToConversation, h1, h2, htr, makesNetworkCall]

/-- Witness for C7 (amended) at the concrete template-syntax id of
`bracesReply`. -/
theorem reply_validation_before_dispatch_witness :
    strIncludes bracesReply.conversationId "\x7b\x7b" = true
    ∧ ((∃ pre post, replyToConversation "https://api" "tok" "now" "uuid" bracesReply
          = .validationError (pre ++ bracesReply.conversationId ++ post))
       ∧ makesNetworkCall (replyToConversation "https://api" "tok" "now" "uuid" bracesReply)
         = false) :=
  ⟨by decide,
   (reply_validation_before_dispatch "https://api" "tok" "now" "uuid" bracesReply).1
     (Or.inl (by decide))⟩

/-- C6: with a valid conversation id, the reply destination resolves in the
priority order (a) the item's `response_webhook`, (b) the `_originalTriggerData`
pass-through bag, (c) the upstream `Cribops Trigger` record; a truthy resolved
destination is dispatched form-encoded to that URL, and when none resolve the
reply is dispatched as a JSON message to the direct agent-messaging endpoint
instead of failing. -/
theorem reply_destination_priority (baseUrl apiToken now uuid : String) (inp : ReplyInput)
    (hb1 : strIncludes inp.conversationId "\x7b\x7b" = false)
    (hb2 : strIncludes inp.conversationId "\x7d\x7d" = false)
    (hne : jsTrim inp.conversationId ≠ "") :
    (truthy (getField inp.itemJson "response_webhook") = true →
      resolveResponseWebhook inp = getField inp.itemJson "response_webhook")
    ∧ (truthy (getField inp.itemJson "response_webhook") = false →
       ∀ bag, inp.originalTriggerData = some bag →
       truthy (getField bag "response_webhook") = true →
       resolveResponseWebhook inp = getField bag "response_webhook")
    ∧ (truthy (getField inp.itemJson "response_webhook") = false →
       (∀ bag, inp.originalTriggerData = some bag →
         truthy (getField bag "response_webhook") = false) →
       ∀ tj, inp.triggerNode = some tj →
       resolveResponseWebhook inp = getField tj "response_webhook")
    ∧ (truthy (resolveResponseWebhook inp) = true →
       wireOf (replyToConversation baseUrl apiToken now uuid inp)
         = some (.form, jsToString (resolveResponseWebhook inp)))
    ∧ (truthy (resolveResponseWebhook inp) = false →
       replyToConversation baseUrl apiToken now uuid inp
         = .jsonDispatch (baseUrl ++ "/webhooks/agents/" ++ inp.agentId ++ "/message")
             [("id", .str uuid), ("content", .str inp.message),
              ("conversationId", .str inp.conversationId), ("agentId", .str inp.agentId),
              ("type", .str "agent_response"), ("timestamp", .str now)]) := by
  have hne' : (inp.conversationId == "" || jsTrim inp.conversationId == "") = false := by
    have h0 : inp.conversationId ≠ "" := by
      intro h
      exact hne (by rw [h]; rfl)
    simp [h0, hne]
  refine ⟨?_, ?_, ?_, ?_, ?_⟩
  · intro h0
    simp [resolveResponseWebhook, h0]
  · intro h0 bag hbag hb
    simp [resolveResponseWebhook, h0, hbag, hb]
  · intro h0 hbags tj htj
    cases hbag : inp.originalTriggerData with
    | none => simp [resolveResponseWebhook, h0, hbag, htj]
    | some bag =>
      have hbf := hbags bag hbag
      simp [resolveResponseWebhook, h0, hbag, hbf, htj]
  · intro hres
    simp [replyToConversation, hb1, hb2, hne', hres, wireOf]
  · intro hres
    simp [replyToConversation, hb1, hb2, hne', hres]

/-- Witness for C6 at the concrete input `noDestReply`: nothing resolves, so
the reply goes out as JSON to the direct agent-messaging endpoint. -/
theorem reply_destination_priority_witness :
    replyToConversation "https://api" "tok" "now" "uuid" noDestReply
      = .jsonDispatch ("https://api" ++ "/webhooks/agents/" ++ "a1" ++ "/message")
          [("id", .str "uuid"), ("content", .str "hello"),
           ("conversationId", .str "c1"), ("agentId", .str "a1"),
           ("type", .str "agent_response"), ("timestamp", .str "now")] :=
  (reply_destination_priority "https://api" "tok" "now" "uuid" noDestReply
    (by decide) (by decide) (by decide)).2.2.2.2 (by decide)

-- Transport client.

/-- Fixture: a non-empty GET data object. -/
def sampleQuery : Obj := [("limit", .num 10), ("queue_name", .str "stripe_events")]

/-- C9: through the transport client's request builder, a GET with a non-empty
`data` object sends no request body and carries the defined key/value pairs in
the URL as a query string; a non-GET request sends the body JSON-encoded. -/
theorem makeRequest_get_query_string (config : HttpConfig) (endpoint : String)
    (d : Obj) (optHeaders : List (String × String)) (hd : d ≠ []) :
    (makeRequest config "GET" endpoint (some d) optHeaders).body = none
    ∧ (makeRequest config "GET" endpoint (some d) optHeaders).url
      = (if searchParamsToString (queryPairs d) ≠ "" then
           config.baseUrl ++ endpoint ++ "?" ++ searchParamsToString (queryPairs d)
         else config.baseUrl ++ endpoint)
    ∧ (∀ m, m ≠ "GET" →
        (makeRequest config m endpoint (some d) optHeaders).body = some (jsonStringify d)) := by
  have hlen : 0 < d.length := List.length_pos.mpr hd
  refine ⟨?_, ?_, ?_⟩
  · simp [makeRequest, hlen]
  · simp [makeRequest, hlen]
  · intro m hm
    simp [makeRequest, hm]

/-- Witness for C9 at the poll-queue query `{limit: 10, queue_name:
"stripe_events"}`. -/
theorem makeRequest_get_query_string_witness :
    sampleQuery ≠ []
    ∧ ((makeRequest ⟨"https://api", "tok"⟩ "GET" "/api/queue/t1/poll"
          (some sampleQuery) []).body = none
       ∧ (makeRequest ⟨"https://api", "tok"⟩ "GET" "/api/queue/t1/poll"
            (some sampleQuery) []).url
         = (if searchParamsToString (queryPairs sampleQuery) ≠ "" then
              "https://api" ++ "/api/queue/t1/poll" ++ "?"
                ++ searchParamsToString (queryPairs sampleQuery)
            else "https://api" ++ "/api/queue/t1/poll")
       ∧ (∀ m, m ≠ "GET" →
           (makeRequest ⟨"https://api", "tok"⟩ m "/api/queue/t1/poll"
              (some sampleQuery) []).body = some (jsonStringify sampleQuery))) :=
  ⟨by decide,
   makeRequest_get_query_string ⟨"https://api", "tok"⟩ "/api/queue/t1/poll"
     sampleQuery [] (by decide)⟩
